import Mathlib

/-!
Shallow embedding of the file-intake pipeline of wix-svg-uploader
(src/src/App.tsx). The component state (React useState hooks, App.tsx
lines 9-13) becomes an explicit record, each event handler becomes a
state-transforming function, and the asynchronous FileReader decode is
modelled by a list of pending reads together with resolution events the
environment fires (onload or onerror of a specific pending reader).
The external editor host call becomes an explicit list of emitted
component specifications so that call counts and payloads are provable.
-/

/-- The allow-listed MIME type for SVG, from App.tsx line 6. -/
def svgMime : String := "image/svg+xml"

/-- The allow-listed MIME type for WebP, from App.tsx line 6. -/
def webpMime : String := "image/webp"

/-- ALLOWED_TYPES, App.tsx line 6: the immutable MIME allow-list. -/
def ALLOWED_TYPES : List String := [ svgMime, webpMime ]

/-- Error message published on validation failure, App.tsx line 25. -/
def unsupportedTypeMessage : String := "Please upload an SVG or WebP file."

/-- Error message published when the FileReader fails, App.tsx line 37. -/
def readFailureMessage : String := "Failed to read the file."

/-- Error message published by insert with no image, App.tsx line 72. -/
def noFileSelectedMessage : String := "No image selected."

/-- The empty string, used as the never-consulted Option.getD default. -/
def emptyString : String := ""

/-- A candidate file as the platform delivers it: reported name, reported
MIME type, and the data URL that a successful readAsDataURL of its bytes
would produce. -/
structure File where
  name : String
  type : String
  dataUrl : String
deriving DecidableEq

/-- A FileReader whose readAsDataURL is still in flight (App.tsx lines
30-39 create one per valid selection). The id distinguishes overlapping
readers; the file is captured by the onload closure. -/
structure PendingRead where
  id : Nat
  file : File
deriving DecidableEq

/-- The component state: the five useState hooks of App.tsx lines 9-13,
plus the in-flight FileReader reads and a counter issuing fresh ids. -/
structure AppState where
  imageDataUrl : Option String
  fileName : Option String
  fileType : Option String
  error : Option String
  dragActive : Bool
  pending : List PendingRead
  nextId : Nat
deriving DecidableEq

/-- The initial state: every useState starts at null or false. -/
def initialState : AppState :=
  { imageDataUrl := none, fileName := none, fileType := none,
    error := none, dragActive := false, pending := [], nextId := 0 }

/-- reset, App.tsx lines 16-21: clears the four result fields and
touches nothing else. -/
def reset (s : AppState) : AppState :=
  { s with imageDataUrl := none, fileName := none, fileType := none,
           error := none }

/-- readFileAsDataUrl, App.tsx lines 23-40: if the reported type is not
in ALLOWED_TYPES, publish the unsupported-type error and return without
touching anything else; otherwise clear the error and start an
asynchronous FileReader read, modelled as enqueuing a pending read with
a fresh id. -/
def readFileAsDataUrl (file : File) (s : AppState) : AppState :=
  if ALLOWED_TYPES.contains file.type then
    { s with error := none,
             pending := s.pending ++ [ { id := s.nextId, file := file } ],
             nextId := s.nextId + 1 }
  else
    { s with error := some unsupportedTypeMessage }

/-- The environment completes the pending read with the given id, firing
its onload (ok = true: App.tsx lines 31-35, publish data URL, name and
type) or its onerror (ok = false: App.tsx lines 36-38, publish the read
failure message). A completed reader is removed from the pending list;
an id with no pending reader changes nothing. -/
def resolveRead (i : Nat) (ok : Bool) (s : AppState) : AppState :=
  match s.pending.find? (fun p => p.id == i) with
  | none => s
  | some p =>
      let s1 := { s with pending := s.pending.filter (fun q => q.id != i) }
      if ok then
        { s1 with imageDataUrl := some p.file.dataUrl,
                  fileName := some p.file.name,
                  fileType := some p.file.type }
      else
        { s1 with error := some readFailureMessage }

/-- handleFileChange, App.tsx lines 42-46: take the first file of the
picker event, if any; with no file do nothing. -/
def handleFileChange (files : List File) (s : AppState) : AppState :=
  match files.head? with
  | none => s
  | some f => readFileAsDataUrl f s

/-- handleDrop, App.tsx lines 48-54: deactivate the drag highlight, then
feed the first dropped file, if any, to readFileAsDataUrl. -/
def handleDrop (files : List File) (s : AppState) : AppState :=
  let s1 : AppState := { s with dragActive := false }
  match files.head? with
  | none => s1
  | some f => readFileAsDataUrl f s1

/-- handleDragOver, App.tsx lines 56-60. -/
def handleDragOver (s : AppState) : AppState :=
  { s with dragActive := true }

/-- handleDragLeave, App.tsx lines 62-66. -/
def handleDragLeave (s : AppState) : AppState :=
  { s with dragActive := false }

/-- The pointer drag events the platform can dispatch at the dropzone. -/
inductive DragEvent where
  | enter
  | over
  | leave
  | dropped (files : List File)
deriving DecidableEq

/-- Event dispatch of the dropzone div, App.tsx lines 103-110: it
registers onDrop, onDragOver and onDragLeave only. A dragenter event
has no registered handler, so it leaves the state unchanged. -/
def dropzoneStep : DragEvent → AppState → AppState
  | DragEvent.enter, s => s
  | DragEvent.over, s => handleDragOver s
  | DragEvent.leave, s => handleDragLeave s
  | DragEvent.dropped files, s => handleDrop files s

/-- JavaScript truthiness on a nullable string: the guard at App.tsx
line 71 treats both null and the empty string as absent. -/
def falsyStr : Option String → Bool
  | none => true
  | some s => s == ""

/-- The component type string passed to the host, App.tsx line 78. -/
def imageComponentType : String := "Image"

/-- One call to the host capability editor.addComponent, App.tsx lines
77-87: component type, data.src, data.name, style.width, style.height. -/
structure ComponentSpec where
  type : String
  src : String
  name : String
  width : Nat
  height : Nat
deriving DecidableEq

/-- insertToWixEditor, App.tsx lines 70-88: when any of the three image
fields is falsy (null or empty), publish the no-file error and call the
host zero times; otherwise leave the state alone and call
editor.addComponent exactly once with the stored data URL and name and
the fixed 200 by 200 placement. The second component of the result is
the list of host calls the invocation performs. In the else branch each
field is a nonempty some, so the Option.getD defaults are never used. -/
def insertToWixEditor (s : AppState) : AppState × List ComponentSpec :=
  if falsyStr s.imageDataUrl || falsyStr s.fileName || falsyStr s.fileType then
    ({ s with error := some noFileSelectedMessage }, [])
  else
    (s, [ { type := imageComponentType,
            src := s.imageDataUrl.getD emptyString,
            name := s.fileName.getD emptyString,
            width := 200, height := 200 } ])

/-- The DecodedImage the export guard considers current: derived from
the truthiness guard of insertToWixEditor (App.tsx line 71). -/
def currentImage (s : AppState) : Option (String × String × String) :=
  if falsyStr s.imageDataUrl || falsyStr s.fileName || falsyStr s.fileType then
    none
  else
    some (s.imageDataUrl.getD emptyString, s.fileName.getD emptyString,
          s.fileType.getD emptyString)

/-- A valid SVG candidate used in concrete traces. -/
def fileA : File :=
  { name := "a.svg", type := "image/svg+xml",
    dataUrl := "data:image/svg+xml;base64,QQ==" }

/-- A second valid SVG candidate used in concrete traces. -/
def fileB : File :=
  { name := "b.svg", type := "image/svg+xml",
    dataUrl := "data:image/svg+xml;base64,Qg==" }

/-- A candidate with a MIME type outside the allow-list. -/
def badFile : File :=
  { name := "notes.txt", type := "text/plain",
    dataUrl := "data:text/plain;base64,QQ==" }

/-- Claim C1: validation succeeds iff the reported MIME type is exactly
image/svg+xml or image/webp (case-sensitive exact membership in
ALLOWED_TYPES); every type outside the set makes intake publish the
unsupported-type error and change nothing else, and every type in the
set passes validation, leaving no error. -/
theorem validationAllowListExact (s : AppState) (f : File) :
    (ALLOWED_TYPES.contains f.type = true ↔ (f.type = svgMime ∨ f.type = webpMime))
    ∧ (ALLOWED_TYPES.contains f.type = false →
        readFileAsDataUrl f s = { s with error := some unsupportedTypeMessage })
    ∧ (ALLOWED_TYPES.contains f.type = true →
        (readFileAsDataUrl f s).error = none) := by
  refine ⟨?_, ?_, ?_⟩
  · simp [ALLOWED_TYPES, List.contains, List.elem_iff]
  · intro h
    have hm : f.type ∉ ALLOWED_TYPES := by simpa using h
    simp [readFileAsDataUrl, hm]
  · intro h
    have hm : f.type ∈ ALLOWED_TYPES := by simpa using h
    simp [readFileAsDataUrl, hm]

/-- Witness for C1 at concrete inputs: a text-plain file is rejected
with the unsupported-type message, an SVG file passes with no error. -/
theorem validationAllowListExact_witness :
    (readFileAsDataUrl badFile initialState
       = { initialState with error := some unsupportedTypeMessage })
    ∧ (readFileAsDataUrl fileA initialState).error = none :=
  ⟨(validationAllowListExact initialState badFile).2.1 (by decide),
   (validationAllowListExact initialState fileA).2.2 (by decide)⟩

/-- Claim C6: a picker change event or a drop event that delivers no
file leaves the decoded image, the file metadata, the error and the
pending reads unchanged and publishes nothing; the drop handler only
deactivates the drag highlight. -/
theorem emptyEventNoop (s : AppState) :
    handleFileChange [] s = s
    ∧ handleDrop [] s = { s with dragActive := false } :=
  ⟨rfl, rfl⟩

/-- Claim C8: with several files in the event, only the first enters the
pipeline; the remaining files are ignored entirely. -/
theorem firstFileOnly (s : AppState) (f : File) (rest : List File) :
    handleFileChange (f :: rest) s = readFileAsDataUrl f s
    ∧ handleDrop (f :: rest) s = readFileAsDataUrl f { s with dragActive := false } :=
  ⟨rfl, rfl⟩

/-- Claim C9: reset sets imageDataUrl, fileName, fileType and error all
to null and leaves the drag-active flag unchanged. -/
theorem resetClearsResult (s : AppState) :
    (reset s).imageDataUrl = none ∧ (reset s).fileName = none
    ∧ (reset s).fileType = none ∧ (reset s).error = none
    ∧ (reset s).dragActive = s.dragActive :=
  ⟨rfl, rfl, rfl, rfl, rfl⟩

/-- Counterexample to claim C7 as stated: a dragenter event does not
transition the tracker to DragActive, because the dropzone registers no
dragenter handler; from the idle initial state it stays idle. -/
theorem dragEnterDoesNotActivate :
    ¬ ((dropzoneStep DragEvent.enter initialState).dragActive = true) := by
  decide

/-- Claim C7 as amended: drag-over always activates the highlight and
drag-leave or drop always deactivates it, regardless of the prior
state; drag-enter has no handler and changes nothing; and drag state
never gates validation, since intake commutes with the drag flag. -/
theorem dragMachineTransitions (s : AppState) (f : File) (files : List File) (b : Bool) :
    (dropzoneStep DragEvent.over s).dragActive = true
    ∧ (dropzoneStep DragEvent.leave s).dragActive = false
    ∧ (dropzoneStep (DragEvent.dropped files) s).dragActive = false
    ∧ dropzoneStep DragEvent.enter s = s
    ∧ readFileAsDataUrl f { s with dragActive := b }
        = { readFileAsDataUrl f s with dragActive := b } := by
  refine ⟨rfl, rfl, ?_, rfl, ?_⟩
  · cases files with
    | nil => rfl
    | cons g rest =>
        show (readFileAsDataUrl g { s with dragActive := false }).dragActive = false
        by_cases h : g.type ∈ ALLOWED_TYPES
        · simp [readFileAsDataUrl, h]
        · simp [readFileAsDataUrl, h]
  · by_cases h : f.type ∈ ALLOWED_TYPES
    · simp [readFileAsDataUrl, h]
    · simp [readFileAsDataUrl, h]

/-- Counterexample to claim C2 as stated: a reachable state (select a
valid SVG, let its read complete, then select a text-plain file) in
which the unsupported-type error is current while the previously decoded
image is still current too, so validation failure did not clear it and
both results coexist. -/
theorem validationFailureKeepsImage :
    ((handleFileChange [ badFile ]
        (resolveRead 0 true (handleFileChange [ fileA ] initialState))).error
      = some unsupportedTypeMessage)
    ∧ ¬ ((handleFileChange [ badFile ]
        (resolveRead 0 true (handleFileChange [ fileA ] initialState))).imageDataUrl
      = none)
    ∧ ((handleFileChange [ badFile ]
        (resolveRead 0 true (handleFileChange [ fileA ] initialState))).imageDataUrl
      = some fileA.dataUrl) := by
  decide

/-- Claim C2 as amended: when a candidate file fails validation the
unsupported-type error is published and every other piece of state,
including a previously current DecodedImage, is left unchanged; hence a
DecodedImage and an IntakeError can be current at the same time. -/
theorem validationFailurePublishesErrorOnly (s : AppState) (f : File)
    (h : ALLOWED_TYPES.contains f.type = false) :
    readFileAsDataUrl f s = { s with error := some unsupportedTypeMessage } := by
  have hm : f.type ∉ ALLOWED_TYPES := by simpa using h
  simp [readFileAsDataUrl, hm]

/-- Witness for the amended C2 at a concrete reachable state holding a
decoded SVG. -/
theorem validationFailurePublishesErrorOnly_witness :
    readFileAsDataUrl badFile
        (resolveRead 0 true (handleFileChange [ fileA ] initialState))
      = { (resolveRead 0 true (handleFileChange [ fileA ] initialState)) with
          error := some unsupportedTypeMessage } :=
  validationFailurePublishesErrorOnly _ badFile (by decide)

/-- Claim C4, evaluated at the failing trace: select valid file A, then
valid file B while A is still decoding; B finishes first, then A
finishes. The code commits the stale A result, so the final current
image is A and not B, violating the never-commit-stale requirement. -/
theorem staleDecodeCommitted :
    ((resolveRead 0 true (resolveRead 1 true
        (handleFileChange [ fileB ] (handleFileChange [ fileA ] initialState)))).imageDataUrl
      = some fileA.dataUrl)
    ∧ ((resolveRead 0 true (resolveRead 1 true
        (handleFileChange [ fileB ] (handleFileChange [ fileA ] initialState)))).fileName
      = some fileA.name)
    ∧ ¬ ((resolveRead 0 true (resolveRead 1 true
        (handleFileChange [ fileB ] (handleFileChange [ fileA ] initialState)))).imageDataUrl
      = some fileB.dataUrl) := by
  decide

/-- A reachable state holding the decoded SVG fileA. -/
def stateWithImage : AppState :=
  { imageDataUrl := some fileA.dataUrl, fileName := some fileA.name,
    fileType := some fileA.type, error := none, dragActive := false,
    pending := [], nextId := 1 }

/-- Claim C3: when no DecodedImage is current, export publishes the
no-file-selected error and performs zero host calls; when a DecodedImage
with data URL d and name n is current, export leaves the state unchanged
and calls addComponent exactly once, with src d, name n, width 200 and
height 200. -/
theorem exportBehaviour (s : AppState) (d n t : String) :
    (currentImage s = none →
      insertToWixEditor s = ({ s with error := some noFileSelectedMessage }, []))
    ∧ (currentImage s = some (d, n, t) →
      insertToWixEditor s
        = (s, [ { type := imageComponentType, src := d, name := n,
                  width := 200, height := 200 } ])) := by
  by_cases h : (falsyStr s.imageDataUrl || falsyStr s.fileName || falsyStr s.fileType) = true
  · constructor
    · intro hc
      simp [insertToWixEditor, h]
    · intro hc
      exfalso
      simp [currentImage, h] at hc
  · constructor
    · intro hc
      exfalso
      simp [currentImage, h] at hc
    · intro hc
      simp [currentImage, h] at hc
      obtain ⟨h1, h2, h3⟩ := hc
      simp [insertToWixEditor, h, h1, h2]

/-- Witness for C3: from the initial state export only publishes the
error; from a state holding the decoded SVG fileA it emits exactly one
host call carrying its data URL and name at the fixed 200 by 200 size. -/
theorem exportBehaviour_witness :
    (insertToWixEditor initialState
       = ({ initialState with error := some noFileSelectedMessage }, []))
    ∧ insertToWixEditor stateWithImage
       = (stateWithImage,
          [ { type := imageComponentType, src := fileA.dataUrl,
              name := fileA.name, width := 200, height := 200 } ]) :=
  ⟨(exportBehaviour initialState emptyString emptyString emptyString).1 (by decide),
   (exportBehaviour stateWithImage fileA.dataUrl fileA.name fileA.type).2 (by decide)⟩

/-- A state whose three image fields are all non-null while fileName is
the empty string, which the export guard treats as absent. -/
def emptyNameState : AppState :=
  { imageDataUrl := some fileA.dataUrl, fileName := some emptyString,
    fileType := some fileA.type, error := none, dragActive := false,
    pending := [], nextId := 1 }

/-- Counterexample to claim C10 as stated: with all three image fields
non-null but fileName the empty string, export does mutate the state,
setting the no-file-selected error, because the guard uses JavaScript
truthiness rather than a null test. -/
theorem exportMutatesDespiteNonNullFields :
    (¬ (emptyNameState.imageDataUrl = none)
     ∧ ¬ (emptyNameState.fileName = none)
     ∧ ¬ (emptyNameState.fileType = none))
    ∧ emptyNameState.error = none
    ∧ (insertToWixEditor emptyNameState).1.error = some noFileSelectedMessage
    ∧ ¬ ((insertToWixEditor emptyNameState).1 = emptyNameState) := by
  decide

/-- Claim C10 as amended: when imageDataUrl, fileName and fileType are
all non-null and nonempty, export leaves every piece of state unchanged;
when any of them is null or empty, export changes only the error field,
setting it to the no-file-selected message. -/
theorem exportFrameCondition (s : AppState) :
    (falsyStr s.imageDataUrl = false → falsyStr s.fileName = false →
       falsyStr s.fileType = false → (insertToWixEditor s).1 = s)
    ∧ ((falsyStr s.imageDataUrl = true ∨ falsyStr s.fileName = true
          ∨ falsyStr s.fileType = true) →
       (insertToWixEditor s).1
         = { s with error := some noFileSelectedMessage }) := by
  constructor
  · intro h1 h2 h3
    simp [insertToWixEditor, h1, h2, h3]
  · intro hd
    have h : (falsyStr s.imageDataUrl || falsyStr s.fileName
        || falsyStr s.fileType) = true := by
      rcases hd with h | h | h <;> simp [h]
    simp [insertToWixEditor, h]

/-- Witness for the amended C10: export is the identity on a state
holding a decoded image and only sets the error on the initial state. -/
theorem exportFrameCondition_witness :
    (insertToWixEditor stateWithImage).1 = stateWithImage
    ∧ (insertToWixEditor initialState).1
        = { initialState with error := some noFileSelectedMessage } :=
  ⟨(exportFrameCondition stateWithImage).1 (by decide) (by decide) (by decide),
   (exportFrameCondition initialState).2 (Or.inl (by decide))⟩

/-- Claim C5: no intake failure is fatal; from any state carrying an
error, selecting a valid file (via picker or drop) immediately clears
the error, and when its read completes the decoded image becomes
current with the error still clear. The pending-read ids are below the
fresh-id counter in every reachable state. -/
theorem validSelectionRecovers (s : AppState) (f : File) (e : String)
    (hwf : ∀ q ∈ s.pending, q.id < s.nextId)
    (herr : s.error = some e)
    (hok : ALLOWED_TYPES.contains f.type = true) :
    (handleFileChange [ f ] s).error = none
    ∧ (handleDrop [ f ] s).error = none
    ∧ (resolveRead s.nextId true (handleFileChange [ f ] s)).imageDataUrl
        = some f.dataUrl
    ∧ (resolveRead s.nextId true (handleFileChange [ f ] s)).fileName
        = some f.name
    ∧ (resolveRead s.nextId true (handleFileChange [ f ] s)).error = none := by
  have hm : f.type ∈ ALLOWED_TYPES := by simpa using hok
  have hstep : handleFileChange [ f ] s
      = { s with error := none,
                 pending := s.pending ++ [ { id := s.nextId, file := f } ],
                 nextId := s.nextId + 1 } := by
    simp [handleFileChange, readFileAsDataUrl, hm]
  have hdstep : handleDrop [ f ] s
      = { s with dragActive := false, error := none,
                 pending := s.pending ++ [ { id := s.nextId, file := f } ],
                 nextId := s.nextId + 1 } := by
    simp [handleDrop, readFileAsDataUrl, hm]
  have hnone : s.pending.find? (fun q => q.id == s.nextId) = none := by
    apply List.find?_eq_none.mpr
    intro q hq
    have hne : q.id ≠ s.nextId := Nat.ne_of_lt (hwf q hq)
    simp [hne]
  refine ⟨by rw [hstep], by rw [hdstep], ?_, ?_, ?_⟩
  all_goals
    rw [hstep]
    simp [resolveRead, hnone]

/-- Witness for C5: from the initial state carrying a read-failure
error, selecting the valid fileA clears the error, and resolving its
read publishes the decoded image with the error still clear. -/
theorem validSelectionRecovers_witness :
    (handleFileChange [ fileA ] { initialState with
        error := some readFailureMessage }).error = none
    ∧ (handleDrop [ fileA ] { initialState with
        error := some readFailureMessage }).error = none
    ∧ (resolveRead ({ initialState with
          error := some readFailureMessage } : AppState).nextId true
        (handleFileChange [ fileA ] { initialState with
          error := some readFailureMessage })).imageDataUrl
        = some fileA.dataUrl
    ∧ (resolveRead ({ initialState with
          error := some readFailureMessage } : AppState).nextId true
        (handleFileChange [ fileA ] { initialState with
          error := some readFailureMessage })).fileName
        = some fileA.name
    ∧ (resolveRead ({ initialState with
          error := some readFailureMessage } : AppState).nextId true
        (handleFileChange [ fileA ] { initialState with
          error := some readFailureMessage })).error = none :=
  validSelectionRecovers { initialState with error := some readFailureMessage }
    fileA readFailureMessage (by decide) rfl (by decide)
